import Mathlib

/-!
Shallow embedding of the `hid-device-class` Rust crate (`src/lib.rs`).

The crate encodes Bluetooth Class-of-Device values as `u32`s.  Every
operation is a pure function on bounded naturals; bitwise OR of values
below `2 ^ 32` never leaves that range, so we model `u32` by `Nat` with
the same `|||`, `&&&` and `<<<` operations the Rust source uses.
Rust's trait dispatch (`MajorDeviceClass`/`MinorDeviceClass`, with the
blanket `DeviceClass` implementation) is embedded as one `Device` sum
type with one constructor per implementing type, dispatching to each
type's own functions.
-/

namespace HidDeviceClass

/-- Rust `MajorServiceClass` struct: ten independent boolean capability flags. -/
structure MajorServiceClass where
  limited_discoverable_mode : Bool
  le_audio : Bool
  positioning : Bool
  networking : Bool
  rendering : Bool
  capturing : Bool
  object_transfer : Bool
  audio : Bool
  telephony : Bool
  information : Bool
deriving DecidableEq

/-- Rust `MajorServiceClass::empty`: a descriptor without any capabilities. -/
def MajorServiceClass.empty : MajorServiceClass :=
  { limited_discoverable_mode := false
    le_audio := false
    positioning := false
    networking := false
    rendering := false
    capturing := false
    object_transfer := false
    audio := false
    telephony := false
    information := false }

/-- Rust `MajorServiceClass::major_service_class`: OR of one fixed bit per set flag. -/
def MajorServiceClass.major_service_class (self : MajorServiceClass) : Nat :=
  0
    ||| (if self.limited_discoverable_mode then 1 <<< 13 else 0)
    ||| (if self.le_audio then 1 <<< 14 else 0)
    ||| (if self.positioning then 1 <<< 16 else 0)
    ||| (if self.networking then 1 <<< 17 else 0)
    ||| (if self.rendering then 1 <<< 18 else 0)
    ||| (if self.capturing then 1 <<< 19 else 0)
    ||| (if self.object_transfer then 1 <<< 20 else 0)
    ||| (if self.audio then 1 <<< 21 else 0)
    ||| (if self.telephony then 1 <<< 22 else 0)
    ||| (if self.information then 1 <<< 23 else 0)

/-- Rust `Miscellaneous` struct: carries a raw minor device class.  The field
projection `Miscellaneous.minor_device_class` is exactly the Rust
`MinorDeviceClass` impl, which returns the field verbatim. -/
structure Miscellaneous where
  minor_device_class : Nat

/-- Impl for `Miscellaneous`:  its `MajorDeviceClass` impl. -/
def Miscellaneous.major_device_class : Nat := 0x0000

/-- Rust `Computer` enum. -/
inductive Computer
  | Uncategorized
  | DesktopWorkstation
  | ServerClassComputer
  | Laptop
  | HandheldPcPda
  | PalmSizedPcPda
  | WearableComputer
  | Tablet
deriving DecidableEq, Fintype

/-- Impl for `Computer`:  its `MajorDeviceClass` impl. -/
def Computer.major_device_class : Nat := 0x0100

/-- Impl for `Computer`:  its `MinorDeviceClass` impl. -/
def Computer.minor_device_class : Computer → Nat
  | .Uncategorized => 0x00
  | .DesktopWorkstation => 0x04
  | .ServerClassComputer => 0x08
  | .Laptop => 0x0C
  | .HandheldPcPda => 0x10
  | .PalmSizedPcPda => 0x14
  | .WearableComputer => 0x18
  | .Tablet => 0x1C

/-- Rust `Phone` enum. -/
inductive Phone
  | Uncategorized
  | Cellular
  | Cordless
  | Smartphone
  | WiredModemOrVoiceGateway
  | CommonIsdnAccess
deriving DecidableEq, Fintype

/-- Impl for `Phone`:  its `MajorDeviceClass` impl. -/
def Phone.major_device_class : Nat := 0x0200

/-- Impl for `Phone`:  its `MinorDeviceClass` impl. -/
def Phone.minor_device_class : Phone → Nat
  | .Uncategorized => 0x00
  | .Cellular => 0x04
  | .Cordless => 0x08
  | .Smartphone => 0x0C
  | .WiredModemOrVoiceGateway => 0x10
  | .CommonIsdnAccess => 0x14

/-- Rust `LanNetworkAccessPoint` enum. -/
inductive LanNetworkAccessPoint
  | FullyAvailable
  | Utilized1To17Percent
  | Utilized17To33Percent
  | Utilized33To50Percent
  | Utilized50To67Percent
  | Utilized67To83Percent
  | Utilized83To99Percent
  | NoServiceAvailable
deriving DecidableEq, Fintype

/-- Impl for `LanNetworkAccessPoint`:  its `MajorDeviceClass` impl. -/
def LanNetworkAccessPoint.major_device_class : Nat := 0x0300

/-- Impl for `LanNetworkAccessPoint`:  its `MinorDeviceClass` impl. -/
def LanNetworkAccessPoint.minor_device_class : LanNetworkAccessPoint → Nat
  | .FullyAvailable => 0x00
  | .Utilized1To17Percent => 0x20
  | .Utilized17To33Percent => 0x40
  | .Utilized33To50Percent => 0x60
  | .Utilized50To67Percent => 0x80
  | .Utilized67To83Percent => 0xA0
  | .Utilized83To99Percent => 0xC0
  | .NoServiceAvailable => 0xE0

/-- Rust `AudioVideo` enum. -/
inductive AudioVideo
  | Uncategorized
  | WearableHeadsetDevice
  | HandsFreeDevice
  | Microphone
  | Loudspeaker
  | Headphones
  | PortableAudio
  | CarAudio
  | SetTopBox
  | HiFiAudioDevice
  | Vcr
  | VideoCamera
  | Camcorder
  | VideoMonitor
  | VideoDisplayAndLoudspeaker
  | VideoConferencing
  | GamingToy
deriving DecidableEq, Fintype

/-- Impl for `AudioVideo`:  its `MajorDeviceClass` impl. -/
def AudioVideo.major_device_class : Nat := 0x0500

/-- Impl for `AudioVideo`:  its `MinorDeviceClass` impl. -/
def AudioVideo.minor_device_class : AudioVideo → Nat
  | .Uncategorized => 0x00
  | .WearableHeadsetDevice => 0x04
  | .HandsFreeDevice => 0x08
  | .Microphone => 0x10
  | .Loudspeaker => 0x14
  | .Headphones => 0x18
  | .PortableAudio => 0x1C
  | .CarAudio => 0x20
  | .SetTopBox => 0x24
  | .HiFiAudioDevice => 0x28
  | .Vcr => 0x2C
  | .VideoCamera => 0x30
  | .Camcorder => 0x34
  | .VideoMonitor => 0x38
  | .VideoDisplayAndLoudspeaker => 0x3C
  | .VideoConferencing => 0x40
  | .GamingToy => 0x48

/-- Rust `PeripheralUpper` enum. -/
inductive PeripheralUpper
  | Uncategorized
  | Keyboard
  | PointingDevice
  | ComboKeyboardPointingDevice
deriving DecidableEq, Fintype

/-- Rust `PeripheralUpper::code`. -/
def PeripheralUpper.code : PeripheralUpper → Nat
  | .Uncategorized => 0x00
  | .Keyboard => 0x40
  | .PointingDevice => 0x80
  | .ComboKeyboardPointingDevice => 0xC0

/-- Rust `PeripheralLower` enum. -/
inductive PeripheralLower
  | Uncategorized
  | Joystick
  | Gamepad
  | RemoteControl
  | SensingDevice
  | DigitizerTablet
  | CardReader
  | DigitalPen
  | HandheldScanner
  | HandheldGesturalInputDevice
deriving DecidableEq, Fintype

/-- Rust `PeripheralLower::code`. -/
def PeripheralLower.code : PeripheralLower → Nat
  | .Uncategorized => 0x00
  | .Joystick => 0x04
  | .Gamepad => 0x08
  | .RemoteControl => 0x0C
  | .SensingDevice => 0x10
  | .DigitizerTablet => 0x14
  | .CardReader => 0x18
  | .DigitalPen => 0x1C
  | .HandheldScanner => 0x20
  | .HandheldGesturalInputDevice => 0x24

/-- Rust `Peripheral` struct: an upper and a lower part. -/
structure Peripheral where
  upper : PeripheralUpper
  lower : PeripheralLower
deriving DecidableEq, Fintype

/-- Rust `Peripheral::new`. -/
def Peripheral.new (upper : PeripheralUpper) (lower : PeripheralLower) : Peripheral :=
  { upper := upper, lower := lower }

/-- Impl for `Peripheral`:  its `MajorDeviceClass` impl. -/
def Peripheral.major_device_class : Nat := 0x0500

/-- Impl for `Peripheral`:  its `MinorDeviceClass` impl. -/
def Peripheral.minor_device_class (self : Peripheral) : Nat :=
  self.upper.code ||| self.lower.code

/-- Rust `Imaging` struct: four independent boolean capability flags. -/
structure Imaging where
  display : Bool
  camera : Bool
  scanner : Bool
  printer : Bool
deriving DecidableEq, Fintype

/-- Impl for `Imaging`:  its `MajorDeviceClass` impl. -/
def Imaging.major_device_class : Nat := 0x0600

/-- Impl for `Imaging`:  its `MinorDeviceClass` impl. -/
def Imaging.minor_device_class (self : Imaging) : Nat :=
  0
    ||| (if self.display then 1 <<< 4 else 0)
    ||| (if self.camera then 1 <<< 5 else 0)
    ||| (if self.scanner then 1 <<< 6 else 0)
    ||| (if self.printer then 1 <<< 7 else 0)

/-- Rust `Wearable` enum. -/
inductive Wearable
  | Wristwatch
  | Pager
  | Jacket
  | Helmet
  | Glasses
  | Pin
deriving DecidableEq, Fintype

/-- Impl for `Wearable`:  its `MajorDeviceClass` impl. -/
def Wearable.major_device_class : Nat := 0x0700

/-- Impl for `Wearable`:  its `MinorDeviceClass` impl. -/
def Wearable.minor_device_class : Wearable → Nat
  | .Wristwatch => 0x04
  | .Pager => 0x08
  | .Jacket => 0x0C
  | .Helmet => 0x10
  | .Glasses => 0x14
  | .Pin => 0x18

/-- Rust `Toy` enum. -/
inductive Toy
  | Robot
  | Vehicle
  | DollActionFigure
  | Controller
  | Game
deriving DecidableEq, Fintype

/-- Impl for `Toy`:  its `MajorDeviceClass` impl. -/
def Toy.major_device_class : Nat := 0x0800

/-- Impl for `Toy`:  its `MinorDeviceClass` impl. -/
def Toy.minor_device_class : Toy → Nat
  | .Robot => 0x04
  | .Vehicle => 0x08
  | .DollActionFigure => 0x0C
  | .Controller => 0x10
  | .Game => 0x14

/-- Rust `Health` enum. -/
inductive Health
  | Undefined
  | BloodPressureMonitor
  | Thermometer
  | WeighingScale
  | GlucoseMeter
  | PulseOximeter
  | HeartPulseRateMonitor
  | HealthDataDisplay
  | StepCounter
  | BodyCompositionAnalyzer
  | PeakFlowMonitor
  | MedicationMonitor
  | KneeProsthesis
  | AnkleProsthesis
  | GenericHealthManager
  | PersonalMobilityDevice
deriving DecidableEq, Fintype

/-- Impl for `Health`:  its `MajorDeviceClass` impl. -/
def Health.major_device_class : Nat := 0x0900

/-- Impl for `Health`:  its `MinorDeviceClass` impl. -/
def Health.minor_device_class : Health → Nat
  | .Undefined => 0x00
  | .BloodPressureMonitor => 0x04
  | .Thermometer => 0x08
  | .WeighingScale => 0x0C
  | .GlucoseMeter => 0x10
  | .PulseOximeter => 0x14
  | .HeartPulseRateMonitor => 0x18
  | .HealthDataDisplay => 0x1C
  | .StepCounter => 0x20
  | .BodyCompositionAnalyzer => 0x24
  | .PeakFlowMonitor => 0x28
  | .MedicationMonitor => 0x2C
  | .KneeProsthesis => 0x30
  | .AnkleProsthesis => 0x34
  | .GenericHealthManager => 0x38
  | .PersonalMobilityDevice => 0x3C

/-- Rust `Uncategorized` struct: carries a raw minor device class.  The field
projection `Uncategorized.minor_device_class` is exactly the Rust
`MinorDeviceClass` impl, which returns the field verbatim. -/
structure Uncategorized where
  minor_device_class : Nat

/-- Impl for `Uncategorized`:  its `MajorDeviceClass` impl. -/
def Uncategorized.major_device_class : Nat := 0x1F00

/-- Sum of every type implementing both `MajorDeviceClass` and
`MinorDeviceClass` in the crate: the possible arguments of
`make_class_of_device`'s generic parameter `C`. -/
inductive Device
  | miscellaneous : Miscellaneous → Device
  | computer : Computer → Device
  | phone : Phone → Device
  | lanNetworkAccessPoint : LanNetworkAccessPoint → Device
  | audioVideo : AudioVideo → Device
  | peripheral : Peripheral → Device
  | imaging : Imaging → Device
  | wearable : Wearable → Device
  | toy : Toy → Device
  | health : Health → Device
  | uncategorized : Uncategorized → Device

/-- Trait dispatch of `MajorDeviceClass::major_device_class`. -/
def Device.major_device_class : Device → Nat
  | .miscellaneous _ => Miscellaneous.major_device_class
  | .computer _ => Computer.major_device_class
  | .phone _ => Phone.major_device_class
  | .lanNetworkAccessPoint _ => LanNetworkAccessPoint.major_device_class
  | .audioVideo _ => AudioVideo.major_device_class
  | .peripheral _ => Peripheral.major_device_class
  | .imaging _ => Imaging.major_device_class
  | .wearable _ => Wearable.major_device_class
  | .toy _ => Toy.major_device_class
  | .health _ => Health.major_device_class
  | .uncategorized _ => Uncategorized.major_device_class

/-- Trait dispatch of `MinorDeviceClass::minor_device_class`. -/
def Device.minor_device_class : Device → Nat
  | .miscellaneous m => m.minor_device_class
  | .computer c => c.minor_device_class
  | .phone p => p.minor_device_class
  | .lanNetworkAccessPoint l => l.minor_device_class
  | .audioVideo a => a.minor_device_class
  | .peripheral p => p.minor_device_class
  | .imaging i => i.minor_device_class
  | .wearable w => w.minor_device_class
  | .toy t => t.minor_device_class
  | .health h => h.minor_device_class
  | .uncategorized u => u.minor_device_class

/-- The blanket `DeviceClass` impl: join the major and minor device classes. -/
def Device.device_class (self : Device) : Nat :=
  self.major_device_class ||| self.minor_device_class

/-- Rust `make_class_of_device`: OR the service class with the device class. -/
def make_class_of_device (major_service_class : MajorServiceClass)
    (device_class : Device) : Nat :=
  major_service_class.major_service_class ||| device_class.device_class

/-- Classifies the `Device` constructors that are not raw passthroughs,
i.e. everything except `Miscellaneous` and `Uncategorized`. -/
def Device.nonRaw : Device → Bool
  | .miscellaneous _ => false
  | .uncategorized _ => false
  | _ => true

/-- Bit positions of the ten `MajorServiceClass` flags, in field order. -/
def MajorServiceClass.flagBit (i : Fin 10) : Nat :=
  [13, 14, 16, 17, 18, 19, 20, 21, 22, 23].getD i.val 0

/-- Sets the i-th `MajorServiceClass` flag, in field order. -/
def MajorServiceClass.setFlag (i : Fin 10) (m : MajorServiceClass) :
    MajorServiceClass :=
  match i.val with
  | 0 => { m with limited_discoverable_mode := true }
  | 1 => { m with le_audio := true }
  | 2 => { m with positioning := true }
  | 3 => { m with networking := true }
  | 4 => { m with rendering := true }
  | 5 => { m with capturing := true }
  | 6 => { m with object_transfer := true }
  | 7 => { m with audio := true }
  | 8 => { m with telephony := true }
  | _ => { m with information := true }

/-- A `MajorServiceClass` with exactly the i-th flag set. -/
def MajorServiceClass.single (i : Fin 10) : MajorServiceClass :=
  MajorServiceClass.setFlag i MajorServiceClass.empty

/-- Bit positions of the four `Imaging` flags, in field order. -/
def Imaging.flagBit (i : Fin 4) : Nat :=
  i.val + 4

/-- The empty `Imaging` descriptor: no flags set. -/
def Imaging.empty : Imaging :=
  { display := false, camera := false, scanner := false, printer := false }

/-- Sets the i-th `Imaging` flag, in field order. -/
def Imaging.setFlag (i : Fin 4) (m : Imaging) : Imaging :=
  match i.val with
  | 0 => { m with display := true }
  | 1 => { m with camera := true }
  | 2 => { m with scanner := true }
  | _ => { m with printer := true }

/-- An `Imaging` with exactly the i-th flag set. -/
def Imaging.single (i : Fin 4) : Imaging :=
  Imaging.setFlag i Imaging.empty

/-! Helper lemmas -/

lemma testBit_if_shift (b : Bool) (k i : Nat) :
    Nat.testBit (if b then 1 <<< k else 0) i = (b && decide (k = i)) := by
  cases b
  · simp
  · simp [Nat.shiftLeft_eq, Nat.testBit_two_pow]

/-- Bit-level description of `major_service_class`. -/
lemma msc_testBit (m : MajorServiceClass) (i : Nat) :
    Nat.testBit m.major_service_class i =
      ((((((((((m.limited_discoverable_mode && decide ((13 : Nat) = i)) ||
        (m.le_audio && decide ((14 : Nat) = i))) ||
        (m.positioning && decide ((16 : Nat) = i))) ||
        (m.networking && decide ((17 : Nat) = i))) ||
        (m.rendering && decide ((18 : Nat) = i))) ||
        (m.capturing && decide ((19 : Nat) = i))) ||
        (m.object_transfer && decide ((20 : Nat) = i))) ||
        (m.audio && decide ((21 : Nat) = i))) ||
        (m.telephony && decide ((22 : Nat) = i))) ||
        (m.information && decide ((23 : Nat) = i))) := by
  simp only [MajorServiceClass.major_service_class, Nat.testBit_lor, testBit_if_shift,
    Nat.zero_testBit, Bool.false_or]

/-- The value `major_service_class` has no bit below 13, at 15, or above 23. -/
lemma msc_testBit_false (m : MajorServiceClass) (i : Nat)
    (hi : i < 13 ∨ i = 15 ∨ 23 < i) :
    Nat.testBit m.major_service_class i = false := by
  have ne : ∀ k : Nat, k ≠ i → decide (k = i) = false := fun k hk => decide_eq_false hk
  rw [msc_testBit, ne 13 (by omega), ne 14 (by omega), ne 16 (by omega), ne 17 (by omega),
    ne 18 (by omega), ne 19 (by omega), ne 20 (by omega), ne 21 (by omega), ne 22 (by omega),
    ne 23 (by omega)]
  simp

/-- Masking `major_service_class` by anything below bit 13 gives 0. -/
lemma msc_land_small (m : MajorServiceClass) (M : Nat) (hM : M < 0x2000) :
    m.major_service_class &&& M = 0 := by
  apply Nat.eq_of_testBit_eq
  intro i
  simp only [Nat.testBit_land, Nat.zero_testBit]
  rcases Nat.lt_or_ge i 13 with h | h
  · rw [msc_testBit_false m i (Or.inl h)]
    simp
  · have hMi : M < 2 ^ i := by
      calc M < 0x2000 := hM
        _ = 2 ^ 13 := by norm_num
        _ ≤ 2 ^ i := Nat.pow_le_pow_right (by omega) h
    rw [Nat.testBit_lt_two_pow hMi]
    simp

/-- The value `major_service_class` lies entirely inside the bit 13-23 mask. -/
lemma msc_land_mask (m : MajorServiceClass) :
    m.major_service_class &&& 0xFFE000 = m.major_service_class := by
  apply Nat.eq_of_testBit_eq
  intro i
  rw [Nat.testBit_land]
  by_cases hout : i < 13 ∨ i = 15 ∨ 23 < i
  · rw [msc_testBit_false m i hout]
    simp
  · push_neg at hout
    obtain ⟨h1, h2, h3⟩ := hout
    have hb1 : 13 ≤ i := by omega
    have hb2 : i ≤ 23 := by omega
    have hM : Nat.testBit 0xFFE000 i = true := by
      interval_cases i <;> decide
    rw [hM, Bool.and_true]

/-- Mask distribution over a three-part OR when only the first part
meets the mask. -/
lemma lor_lor_land (x y z M : Nat) (hx : x &&& M = x) (hy : y &&& M = 0)
    (hz : z &&& M = 0) : ((x ||| y) ||| z) &&& M = x := by
  apply Nat.eq_of_testBit_eq
  intro i
  have hx2 := congrArg (Nat.testBit · i) hx
  have hy2 := congrArg (Nat.testBit · i) hy
  have hz2 := congrArg (Nat.testBit · i) hz
  simp only [Nat.testBit_land, Nat.zero_testBit] at hx2 hy2 hz2
  simp only [Nat.testBit_land, Nat.testBit_lor]
  cases htM : Nat.testBit M i <;> cases htx : Nat.testBit x i <;>
    cases hty : Nat.testBit y i <;> cases htz : Nat.testBit z i <;>
    simp_all

/-- Bitwise facts about every nonraw minor device class. -/
lemma device_minor_bits (d : Device) (hd : d.nonRaw = true) :
    d.minor_device_class % 4 = 0 ∧ d.minor_device_class ≤ 0xFC ∧
    Nat.testBit d.minor_device_class 0 = false ∧
    Nat.testBit d.minor_device_class 1 = false ∧
    d.minor_device_class &&& 0xFC = d.minor_device_class ∧
    d.minor_device_class &&& 0xFFE000 = 0 ∧
    d.minor_device_class &&& 0x1F00 = 0 := by
  cases d with
  | miscellaneous m => simp [Device.nonRaw] at hd
  | uncategorized u => simp [Device.nonRaw] at hd
  | computer c => revert c; decide
  | phone p => revert p; decide
  | lanNetworkAccessPoint l => revert l; decide
  | audioVideo a => revert a; decide
  | peripheral p => revert p; decide
  | imaging i => revert i; decide
  | wearable w => revert w; decide
  | toy t => revert t; decide
  | health h => revert h; decide

/-- Bitwise facts about every major device class constant. -/
lemma device_major_bits (d : Device) :
    d.major_device_class &&& 0x1F00 = d.major_device_class ∧
    d.major_device_class &&& 0xFFE000 = 0 ∧
    d.major_device_class &&& 0xFC = 0 ∧
    Nat.testBit d.major_device_class 0 = false ∧
    Nat.testBit d.major_device_class 1 = false := by
  cases d <;> simp only [Device.major_device_class] <;> decide

/-- The function `make_class_of_device` unfolded to its three parts. -/
lemma make_class_eq (s : MajorServiceClass) (d : Device) :
    make_class_of_device s d =
      s.major_service_class ||| d.major_device_class ||| d.minor_device_class := by
  simp [make_class_of_device, Device.device_class, Nat.lor_assoc]

/-! Claim theorems -/

/-- C1: for every `MajorServiceClass` descriptor and every device-category
value, `make_class_of_device` equals the bitwise OR of the descriptor's
`major_service_class`, the category's `major_device_class` constant and
the value's `minor_device_class`.  Being a Lean function of its two
arguments, it is pure, total and deterministic. -/
theorem make_class_of_device_is_three_part_or (s : MajorServiceClass) (d : Device) :
    make_class_of_device s d =
      s.major_service_class ||| d.major_device_class ||| d.minor_device_class :=
  make_class_eq s d

/-- C3: `major_service_class` sets bit 13 for `limited_discoverable_mode`,
14 for `le_audio`, 16 for `positioning`, 17 for `networking`, 18 for
`rendering`, 19 for `capturing`, 20 for `object_transfer`, 21 for `audio`,
22 for `telephony`, 23 for `information`, exactly when the flag is true;
no bit below 13, at 15, or above 23 is ever set; the empty descriptor
encodes to 0. -/
theorem major_service_class_bit_layout (m : MajorServiceClass) :
    Nat.testBit m.major_service_class 13 = m.limited_discoverable_mode ∧
    Nat.testBit m.major_service_class 14 = m.le_audio ∧
    Nat.testBit m.major_service_class 16 = m.positioning ∧
    Nat.testBit m.major_service_class 17 = m.networking ∧
    Nat.testBit m.major_service_class 18 = m.rendering ∧
    Nat.testBit m.major_service_class 19 = m.capturing ∧
    Nat.testBit m.major_service_class 20 = m.object_transfer ∧
    Nat.testBit m.major_service_class 21 = m.audio ∧
    Nat.testBit m.major_service_class 22 = m.telephony ∧
    Nat.testBit m.major_service_class 23 = m.information ∧
    (∀ i : Nat, i < 13 ∨ i = 15 ∨ 23 < i →
      Nat.testBit m.major_service_class i = false) ∧
    MajorServiceClass.empty.major_service_class = 0 := by
  refine ⟨?_, ?_, ?_, ?_, ?_, ?_, ?_, ?_, ?_, ?_, msc_testBit_false m, by decide⟩ <;>
    · rw [msc_testBit]
      simp

/-- C3 witness: bit 15 of a concrete descriptor is clear. -/
theorem major_service_class_bit_layout_witness :
    Nat.testBit MajorServiceClass.empty.major_service_class 15 = false :=
  (major_service_class_bit_layout
    MajorServiceClass.empty).2.2.2.2.2.2.2.2.2.2.1 15 (Or.inr (Or.inl rfl))

/-- C4: each device category's `major_device_class` is a fixed constant,
independent of instance data, matching the Bluetooth table; `AudioVideo`
and `Peripheral` share 0x0500. -/
theorem major_device_class_table :
    (∀ m : Miscellaneous, (Device.miscellaneous m).major_device_class = 0x0000) ∧
    (∀ c : Computer, (Device.computer c).major_device_class = 0x0100) ∧
    (∀ p : Phone, (Device.phone p).major_device_class = 0x0200) ∧
    (∀ l : LanNetworkAccessPoint,
      (Device.lanNetworkAccessPoint l).major_device_class = 0x0300) ∧
    (∀ a : AudioVideo, (Device.audioVideo a).major_device_class = 0x0500) ∧
    (∀ p : Peripheral, (Device.peripheral p).major_device_class = 0x0500) ∧
    (∀ i : Imaging, (Device.imaging i).major_device_class = 0x0600) ∧
    (∀ w : Wearable, (Device.wearable w).major_device_class = 0x0700) ∧
    (∀ t : Toy, (Device.toy t).major_device_class = 0x0800) ∧
    (∀ h : Health, (Device.health h).major_device_class = 0x0900) ∧
    (∀ u : Uncategorized, (Device.uncategorized u).major_device_class = 0x1F00) ∧
    AudioVideo.major_device_class = Peripheral.major_device_class :=
  ⟨fun _ => rfl, fun _ => rfl, fun _ => rfl, fun _ => rfl, fun _ => rfl, fun _ => rfl,
    fun _ => rfl, fun _ => rfl, fun _ => rfl, fun _ => rfl, fun _ => rfl, rfl⟩

/-- C5: a `Peripheral`'s minor device class is the OR of its upper and
lower codes, every one of the 4 x 10 combinations is accepted, and all 40
results are pairwise distinct. -/
theorem peripheral_minor_composition :
    (∀ u : PeripheralUpper, ∀ l : PeripheralLower,
      (Peripheral.new u l).minor_device_class = u.code ||| l.code) ∧
    (∀ u u' : PeripheralUpper, ∀ l l' : PeripheralLower,
      (Peripheral.new u l).minor_device_class =
          (Peripheral.new u' l').minor_device_class →
        u = u' ∧ l = l') := by
  constructor
  · intro u l
    rfl
  · decide

/-- C5 witness: distinctness applied at a concrete pair of combinations. -/
theorem peripheral_minor_composition_witness :
    PeripheralUpper.Keyboard = PeripheralUpper.Keyboard ∧
    PeripheralLower.Joystick = PeripheralLower.Joystick :=
  peripheral_minor_composition.2 PeripheralUpper.Keyboard PeripheralUpper.Keyboard
    PeripheralLower.Joystick PeripheralLower.Joystick rfl

/-- C6: for the two boolean-flag encoders, no flags encode to 0, a single
flag F encodes to exactly `1 <<< bit F`, and two distinct flags encode to
the OR of the two single-flag encodings. -/
theorem flag_encoders_superpose :
    MajorServiceClass.empty.major_service_class = 0 ∧
    Imaging.empty.minor_device_class = 0 ∧
    (∀ i : Fin 10, (MajorServiceClass.single i).major_service_class =
      1 <<< MajorServiceClass.flagBit i) ∧
    (∀ i : Fin 4, (Imaging.single i).minor_device_class = 1 <<< Imaging.flagBit i) ∧
    (∀ i j : Fin 10, i ≠ j →
      (MajorServiceClass.setFlag j (MajorServiceClass.single i)).major_service_class =
        (MajorServiceClass.single i).major_service_class |||
          (MajorServiceClass.single j).major_service_class) ∧
    (∀ i j : Fin 4, i ≠ j →
      (Imaging.setFlag j (Imaging.single i)).minor_device_class =
        (Imaging.single i).minor_device_class |||
          (Imaging.single j).minor_device_class) := by
  refine ⟨by decide, by decide, by decide, by decide, by decide, by decide⟩

/-- C6 witness: two distinct service-class flags superpose at a concrete pair. -/
theorem flag_encoders_superpose_witness :
    (MajorServiceClass.setFlag 8 (MajorServiceClass.single 7)).major_service_class =
      (MajorServiceClass.single 7).major_service_class |||
        (MajorServiceClass.single 8).major_service_class :=
  flag_encoders_superpose.2.2.2.2.1 7 8 (by decide)

/-- C7: `Miscellaneous` and `Uncategorized` return the caller-supplied raw
integer verbatim as the minor device class, with no validation or
masking. -/
theorem raw_minor_passthrough (m : Nat) :
    (Device.miscellaneous (Miscellaneous.mk m)).minor_device_class = m ∧
    (Device.uncategorized (Uncategorized.mk m)).minor_device_class = m :=
  ⟨rfl, rfl⟩

/-- C8: the five regression fixtures of the specification. -/
theorem regression_fixtures :
    make_class_of_device MajorServiceClass.empty
      (Device.computer Computer.Laptop) = 0x010C ∧
    make_class_of_device MajorServiceClass.empty
      (Device.phone Phone.Smartphone) = 0x020C ∧
    make_class_of_device
      { MajorServiceClass.empty with audio := true, telephony := true }
      (Device.toy Toy.Robot) = (1 <<< 21) ||| (1 <<< 22) ||| 0x0800 ||| 0x04 ∧
    make_class_of_device MajorServiceClass.empty
      (Device.peripheral
        (Peripheral.new PeripheralUpper.Keyboard PeripheralLower.Joystick)) = 0x0544 ∧
    make_class_of_device MajorServiceClass.empty
      (Device.uncategorized (Uncategorized.mk 0x3F)) = 0x1F00 ||| 0x3F := by
  refine ⟨by decide, by decide, by decide, by decide, by decide⟩

/-- C9: every non-raw category's minor device class is a multiple of 4 and
at most 0xFC, so bits 0 and 1 of any composed class of device with a
non-raw category are clear. -/
theorem nonraw_minor_alignment :
    (∀ d : Device, d.nonRaw = true →
      d.minor_device_class % 4 = 0 ∧ d.minor_device_class ≤ 0xFC) ∧
    (∀ (s : MajorServiceClass) (d : Device), d.nonRaw = true →
      Nat.testBit (make_class_of_device s d) 0 = false ∧
      Nat.testBit (make_class_of_device s d) 1 = false) := by
  refine ⟨fun d hd => ⟨(device_minor_bits d hd).1, (device_minor_bits d hd).2.1⟩,
    fun s d hd => ?_⟩
  have hs0 := msc_testBit_false s 0 (by omega)
  have hs1 := msc_testBit_false s 1 (by omega)
  have hM0 := (device_major_bits d).2.2.2.1
  have hM1 := (device_major_bits d).2.2.2.2
  have hm0 := (device_minor_bits d hd).2.2.1
  have hm1 := (device_minor_bits d hd).2.2.2.1
  rw [make_class_eq]
  constructor <;>
    simp only [Nat.testBit_lor, hs0, hs1, hM0, hM1, hm0, hm1, Bool.or_false]

/-- C9 witness: a concrete non-raw device. -/
theorem nonraw_minor_alignment_witness :
    (Device.computer Computer.Laptop).minor_device_class % 4 = 0 ∧
    (Device.computer Computer.Laptop).minor_device_class ≤ 0xFC :=
  nonraw_minor_alignment.1 (Device.computer Computer.Laptop) rfl

/-- C10: for a non-raw category the three subfields of a composed class of
device are recoverable by masking: bits 13-23 give the service class, bits
8-12 the major device class, bits 2-7 the minor device class. -/
theorem class_of_device_field_recovery (s : MajorServiceClass) (d : Device)
    (hd : d.nonRaw = true) :
    make_class_of_device s d &&& 0xFFE000 = s.major_service_class ∧
    make_class_of_device s d &&& 0x1F00 = d.major_device_class ∧
    make_class_of_device s d &&& 0xFC = d.minor_device_class := by
  have hmin := device_minor_bits d hd
  have hmaj := device_major_bits d
  refine ⟨?_, ?_, ?_⟩
  · rw [make_class_eq]
    exact lor_lor_land _ _ _ _ (msc_land_mask s) hmaj.2.1 hmin.2.2.2.2.2.1
  · rw [make_class_eq, Nat.lor_comm s.major_service_class d.major_device_class]
    exact lor_lor_land _ _ _ _ hmaj.1 (msc_land_small s _ (by norm_num))
      hmin.2.2.2.2.2.2
  · rw [make_class_eq,
      Nat.lor_comm (s.major_service_class ||| d.major_device_class)
        d.minor_device_class, ← Nat.lor_assoc]
    exact lor_lor_land _ _ _ _ hmin.2.2.2.2.1 (msc_land_small s _ (by norm_num))
      hmaj.2.2.1
  -- masks: 0xFFE000 = bits 13-23, 0x1F00 = bits 8-12, 0xFC = bits 2-7

/-- C10 witness: field recovery at a concrete composition. -/
theorem class_of_device_field_recovery_witness :
    make_class_of_device MajorServiceClass.empty
        (Device.toy Toy.Robot) &&& 0xFC =
      (Device.toy Toy.Robot).minor_device_class :=
  (class_of_device_field_recovery MajorServiceClass.empty
    (Device.toy Toy.Robot) rfl).2.2

/-- C2 counterexample: `LanNetworkAccessPoint::NoServiceAvailable` has
minor device class 0xE0, outside [0, 0x3F]. -/
theorem minor_class_range_counterexample :
    ¬ LanNetworkAccessPoint.NoServiceAvailable.minor_device_class ≤ 0x3F := by
  decide

/-- C2 (amended): every non-raw category's `minor_device_class` lies in
[0, 0xFC], the in-place value range of bits 2-7; only the raw passthrough
categories may return wider values. -/
theorem minor_class_range :
    (∀ c : Computer, c.minor_device_class ≤ 0xFC) ∧
    (∀ p : Phone, p.minor_device_class ≤ 0xFC) ∧
    (∀ l : LanNetworkAccessPoint, l.minor_device_class ≤ 0xFC) ∧
    (∀ a : AudioVideo, a.minor_device_class ≤ 0xFC) ∧
    (∀ w : Wearable, w.minor_device_class ≤ 0xFC) ∧
    (∀ t : Toy, t.minor_device_class ≤ 0xFC) ∧
    (∀ h : Health, h.minor_device_class ≤ 0xFC) ∧
    (∀ i : Imaging, i.minor_device_class ≤ 0xFC) ∧
    (∀ p : Peripheral, p.minor_device_class ≤ 0xFC) := by
  refine ⟨by decide, by decide, by decide, by decide, by decide, by decide, by decide,
    by decide, by decide⟩

end HidDeviceClass
